import Mathlib

/-!
Shallow embedding of `src/despacho_hidrotermico.py`
(`otimizacao_despacho_anual_com_afluencias`), the annual hydrothermal
dispatch loop, together with the water-value update policies that the
specification attributes to the repository's Water-Value Iterator.

Real numbers of the program are modelled as `ℚ`.  The external nonlinear
solver (`scipy.optimize.minimize`, method SLSQP) is modelled as an oracle
`NLP → Option (ℚ × ℚ)`: `some x` stands for `res.success = True` with
`res.x = x`, `none` for a failed solve.  Properties of the solver that the
source relies on (returned points respect the box bounds; successful points
satisfy the equality constraint to tolerance) are stated as explicit
hypotheses on the oracle.
-/

/-- Static configuration of `otimizacao_despacho_anual_com_afluencias`
(the module-level constants of the source, lines 21-36 and 97). -/
structure Config where
  p_hidro_min : ℚ
  p_hidro_max : ℚ
  p_termo_min : ℚ
  p_termo_max : ℚ
  coef_perda : ℚ
  limite_transmissao : ℚ
  custo_termo : ℚ
  volume_inicial : ℚ
  volume_min : ℚ
  volume_max : ℚ
  capacidade_reservatorio : ℚ
  horas_mes : ℚ

/-- The concrete constants hard-coded in the source. -/
def srcConfig : Config where
  p_hidro_min := 50
  p_hidro_max := 400
  p_termo_min := 100
  p_termo_max := 600
  coef_perda := 1/10000
  limite_transmissao := 800
  custo_termo := 50
  volume_inicial := 50
  volume_min := 20
  volume_max := 95
  capacidade_reservatorio := 5000
  horas_mes := 720

/-- `volume_min * capacidade_reservatorio / 100`: minimum operating volume in MWh. -/
def volumeMinAbs (cfg : Config) : ℚ :=
  cfg.volume_min * cfg.capacidade_reservatorio / 100

/-- `volume_max * capacidade_reservatorio / 100`: maximum volume in MWh. -/
def volumeMaxAbs (cfg : Config) : ℚ :=
  cfg.volume_max * cfg.capacidade_reservatorio / 100

/-- The month table of the source: name, monthly demand (MW), monthly
inflow (MWh), in source order (lines 39-68). -/
def meses : List (String × ℚ × ℚ) :=
  [("Janeiro", 520, 800), ("Fevereiro", 510, 780), ("Março", 480, 720),
   ("Abril", 450, 650), ("Maio", 420, 550), ("Junho", 400, 480),
   ("Julho", 410, 500), ("Agosto", 430, 550), ("Setembro", 460, 650),
   ("Outubro", 490, 750), ("Novembro", 520, 800), ("Dezembro", 540, 850)]

/-- Source line 95: `energia_disponivel = min(afluencia + volume_atual,
volume_max * capacidade_reservatorio / 100)`. -/
def energiaDisponivel (cfg : Config) (afluencia volumeAtual : ℚ) : ℚ :=
  min (afluencia + volumeAtual) (volumeMaxAbs cfg)

/-- Source line 98: `p_hidro_max_disponivel = min(p_hidro_max,
energia_disponivel / horas_mes)`. -/
def pHidroMaxDisponivel (cfg : Config) (afluencia volumeAtual : ℚ) : ℚ :=
  min cfg.p_hidro_max (energiaDisponivel cfg afluencia volumeAtual / cfg.horas_mes)

/-- Source lines 100-103: the objective handed to the solver,
`p_termo * custo_termo`. -/
def objetivo (cfg : Config) (x : ℚ × ℚ) : ℚ :=
  x.2 * cfg.custo_termo

/-- Source lines 105-110: the power-balance equality constraint,
`(p_hidro + p_termo) - demanda - coef_perda * (p_hidro + p_termo)**2`. -/
def restricao_balanco (cfg : Config) (demanda : ℚ) (x : ℚ × ℚ) : ℚ :=
  (x.1 + x.2) - demanda - cfg.coef_perda * (x.1 + x.2) ^ 2

/-- Source lines 112-114: the transmission-limit inequality constraint. -/
def restricao_transmissao (cfg : Config) (x : ℚ × ℚ) : ℚ :=
  cfg.limite_transmissao - (x.1 + x.2)

/-- One per-month nonlinear program as the source assembles it for
`scipy.optimize.minimize` (lines 116-133): objective, seed `x0`, the box
bounds `Bounds([p_hidro_min, p_termo_min], [p_hidro_max_bound, p_termo_max])`
with `p_hidro_max_bound = max(p_hidro_min, p_hidro_max_disponivel)`
(line 122), and the two constraint callables. -/
structure NLP where
  obj : ℚ × ℚ → ℚ
  x0 : ℚ × ℚ
  lower : ℚ × ℚ
  upper : ℚ × ℚ
  bal : ℚ × ℚ → ℚ
  trans : ℚ × ℚ → ℚ

/-- Assembles the month's NLP exactly as source lines 100-129 do. -/
def mkNLP (cfg : Config) (demanda afluencia volumeAtual : ℚ) : NLP where
  obj := objetivo cfg
  x0 := (min (pHidroMaxDisponivel cfg afluencia volumeAtual) (demanda * (6/10)),
         max cfg.p_termo_min (demanda * (4/10)))
  lower := (cfg.p_hidro_min, cfg.p_termo_min)
  upper := (max cfg.p_hidro_min (pHidroMaxDisponivel cfg afluencia volumeAtual),
            cfg.p_termo_max)
  bal := restricao_balanco cfg demanda
  trans := restricao_transmissao cfg

/-- The solver oracle: `some x` models `res.success` with `res.x = x`,
`none` models a failed solve. -/
def SolverOracle : Type :=
  NLP → Option (ℚ × ℚ)

/-- The oracle respects the box bounds passed to it (scipy's `Bounds`
are hard: SLSQP clips iterates into them). -/
def RespectsBounds (solve : SolverOracle) : Prop :=
  ∀ p x, solve p = some x →
    p.lower.1 ≤ x.1 ∧ x.1 ≤ p.upper.1 ∧ p.lower.2 ≤ x.2 ∧ x.2 ≤ p.upper.2

/-- On success the oracle satisfies the equality constraint to tolerance
`tol` (the feasibility guarantee of a successful SLSQP solve). -/
def MeetsBalance (solve : SolverOracle) (tol : ℚ) : Prop :=
  ∀ p x, solve p = some x → |p.bal x| ≤ tol

/-- One row of the source's `resultados` list (lines 164-178). -/
structure MonthResult where
  mes : String
  demanda : ℚ
  afluencia : ℚ
  pHidro : ℚ
  pTermo : ℚ
  geracaoTotal : ℚ
  perdas : ℚ
  eficiencia : ℚ
  proporcaoHidro : ℚ
  energiaHidro : ℚ
  volumeInicial : ℚ
  volumeFinal : ℚ
  custo : ℚ
  deriving DecidableEq, Repr

/-- The row the source appends on a successful solve (lines 136-178):
derived quantities, the water balance `volume_novo = clamp(volume_atual +
afluencia - energia_hidro_mes, volumeMinAbs, volumeMaxAbs)` (lines 148-150),
and all thirteen recorded fields. -/
def mkRow (cfg : Config) (mes : String) (demanda afluencia volumeAtual : ℚ)
    (x : ℚ × ℚ) : MonthResult :=
  let pHidro := x.1
  let pTermo := x.2
  let perdas := cfg.coef_perda * (pHidro + pTermo) ^ 2
  let geracaoTotal := pHidro + pTermo
  let eficiencia := if 0 < geracaoTotal then (geracaoTotal - perdas) / geracaoTotal * 100 else 0
  let proporcaoHidro := if 0 < geracaoTotal then pHidro / geracaoTotal * 100 else 0
  let energiaHidro := pHidro * cfg.horas_mes
  let volumeNovo :=
    max (volumeMinAbs cfg) (min (volumeMaxAbs cfg) (volumeAtual + afluencia - energiaHidro))
  { mes := mes
    demanda := demanda
    afluencia := afluencia
    pHidro := pHidro
    pTermo := pTermo
    geracaoTotal := geracaoTotal
    perdas := perdas
    eficiencia := eficiencia
    proporcaoHidro := proporcaoHidro
    energiaHidro := energiaHidro
    volumeInicial := volumeAtual
    volumeFinal := volumeNovo
    custo := objetivo cfg x }

/-- One iteration of the source's month loop (lines 85-184): build the
month's NLP, call the solver; on success append the result row and advance
the reservoir volume to `volume_novo` (line 180); on failure (lines
182-184) record nothing and leave the volume untouched. -/
def runMonth (cfg : Config) (solve : SolverOracle) (volumeAtual : ℚ)
    (m : String × ℚ × ℚ) : Option MonthResult × ℚ :=
  match solve (mkNLP cfg m.2.1 m.2.2 volumeAtual) with
  | some x =>
      let r := mkRow cfg m.1 m.2.1 m.2.2 volumeAtual x
      (some r, r.volumeFinal)
  | none => (none, volumeAtual)

/-- The month loop over a list of months, threading the reservoir volume;
returns the accumulated `resultados` rows and the final volume. -/
def runMonths (cfg : Config) (solve : SolverOracle) :
    ℚ → List (String × ℚ × ℚ) → List MonthResult × ℚ
  | vol, [] => ([], vol)
  | vol, m :: rest =>
      match runMonth cfg solve vol m with
      | (some r, vol2) =>
          let tail := runMonths cfg solve vol2 rest
          (r :: tail.1, tail.2)
      | (none, vol2) => runMonths cfg solve vol2 rest

/-- The whole annual pass of the source, starting from
`volume_inicial * capacidade_reservatorio / 100` (line 72), parametrized by
the external solver. -/
def otimizacao_despacho_anual_com_afluencias (cfg : Config) (solve : SolverOracle) :
    List MonthResult × ℚ :=
  runMonths cfg solve (cfg.volume_inicial * cfg.capacidade_reservatorio / 100) meses

/-- Modelled from the spec: the per-period dispatch cost
`cost(hydro, thermo) = c * thermo + w * hydro * periodHours` of the
Single-Period Dispatch Solver contract; the water-price-aware objective is
part of the Water-Value Iterator variants, whose code is not under `src/`. -/
def specDispatchCost (c w horas : ℚ) (x : ℚ × ℚ) : ℚ :=
  c * x.2 + w * x.1 * horas

/-- Modelled from the spec: the two water-value update policies that must
both be available as configuration options of the Water-Value Iterator,
whose code is not under `src/`. -/
inductive UpdatePolicy where
  | flat
  | shadowPrice
  deriving DecidableEq, Repr

/-- Clamp a rational to `[0, 1]`. -/
def clamp01 (x : ℚ) : ℚ :=
  max 0 (min 1 x)

/-- Modelled from the spec: the storage ratio
`(storageAfter - volumeMin) / (volumeMax - volumeMin)` clamped to `[0,1]`. -/
def storageFrac (vmin vmax storageAfter : ℚ) : ℚ :=
  clamp01 ((storageAfter - vmin) / (vmax - vmin))

/-- Modelled from the spec: the Water-Value Iterator's derivation of the
next water-value vector from an Annual Pass trajectory (its code is not
under `src/`).  `old` is the current water-value vector, `storageAfter` the
end-of-period storages of the trajectory.  Flat policy: every period gets
the constant `c * eff`.  Storage-ratio (shadow-price) policy: period 0
retains its prior value and `new[i+1] = c * (1 - storageFrac vmin vmax
(storageAfter[i]))` for every period `i` except the last. -/
def updateWaterValue (policy : UpdatePolicy) (c eff vmin vmax : ℚ)
    (old storageAfter : List ℚ) : List ℚ :=
  match policy with
  | .flat => old.map (fun _ => c * eff)
  | .shadowPrice =>
      (List.range old.length).map (fun i =>
        if i = 0 then old.headD 0
        else c * (1 - storageFrac vmin vmax (storageAfter.getD (i - 1) 0)))

/-- A concrete conforming solver oracle used to exercise the embedding: it
answers `(50, 500)` whenever that point lies inside the box bounds and
meets the balance constraint within `1`, and fails otherwise. -/
def okOracle : SolverOracle := fun p =>
  if p.lower.1 ≤ 50 ∧ 50 ≤ p.upper.1 ∧ p.lower.2 ≤ 500 ∧ 500 ≤ p.upper.2 ∧
      |p.bal (50, 500)| ≤ 1 then
    some (50, 500)
  else
    none

/-- A solver oracle that always fails, exercising the failure branch. -/
def noOracle : SolverOracle := fun _ => none

/-- The January row produced by `okOracle` on the source data. -/
def janRow : MonthResult :=
  { mes := "Janeiro", demanda := 520, afluencia := 800, pHidro := 50, pTermo := 500,
    geracaoTotal := 550, perdas := 121/4, eficiencia := 189/2, proporcaoHidro := 100/11,
    energiaHidro := 36000, volumeInicial := 2500, volumeFinal := 1000, custo := 25000 }

/-- The November row produced by `okOracle` on the source data. -/
def novRow : MonthResult :=
  { mes := "Novembro", demanda := 520, afluencia := 800, pHidro := 50, pTermo := 500,
    geracaoTotal := 550, perdas := 121/4, eficiencia := 189/2, proporcaoHidro := 100/11,
    energiaHidro := 36000, volumeInicial := 1000, volumeFinal := 1000, custo := 25000 }

section Lemmas

variable (cfg : Config) (solve : SolverOracle)

theorem mkRow_mes (mes : String) (d a v : ℚ) (x : ℚ × ℚ) :
    (mkRow cfg mes d a v x).mes = mes := rfl

theorem mkRow_demanda (mes : String) (d a v : ℚ) (x : ℚ × ℚ) :
    (mkRow cfg mes d a v x).demanda = d := rfl

theorem mkRow_afluencia (mes : String) (d a v : ℚ) (x : ℚ × ℚ) :
    (mkRow cfg mes d a v x).afluencia = a := rfl

theorem mkRow_pHidro (mes : String) (d a v : ℚ) (x : ℚ × ℚ) :
    (mkRow cfg mes d a v x).pHidro = x.1 := rfl

theorem mkRow_pTermo (mes : String) (d a v : ℚ) (x : ℚ × ℚ) :
    (mkRow cfg mes d a v x).pTermo = x.2 := rfl

theorem mkRow_volumeInicial (mes : String) (d a v : ℚ) (x : ℚ × ℚ) :
    (mkRow cfg mes d a v x).volumeInicial = v := rfl

theorem mkRow_volumeFinal (mes : String) (d a v : ℚ) (x : ℚ × ℚ) :
    (mkRow cfg mes d a v x).volumeFinal
      = max (volumeMinAbs cfg) (min (volumeMaxAbs cfg) (v + a - x.1 * cfg.horas_mes)) := rfl

theorem mkRow_custo (mes : String) (d a v : ℚ) (x : ℚ × ℚ) :
    (mkRow cfg mes d a v x).custo = objetivo cfg x := rfl

theorem runMonth_none (vol : ℚ) (m : String × ℚ × ℚ)
    (h : solve (mkNLP cfg m.2.1 m.2.2 vol) = none) :
    runMonth cfg solve vol m = (none, vol) := by
  unfold runMonth
  rw [h]

theorem runMonth_some (vol : ℚ) (m : String × ℚ × ℚ) (x : ℚ × ℚ)
    (h : solve (mkNLP cfg m.2.1 m.2.2 vol) = some x) :
    runMonth cfg solve vol m
      = (some (mkRow cfg m.1 m.2.1 m.2.2 vol x), (mkRow cfg m.1 m.2.1 m.2.2 vol x).volumeFinal) := by
  unfold runMonth
  rw [h]

theorem runMonths_cons_none (vol : ℚ) (m : String × ℚ × ℚ) (rest : List (String × ℚ × ℚ))
    (h : solve (mkNLP cfg m.2.1 m.2.2 vol) = none) :
    runMonths cfg solve vol (m :: rest) = runMonths cfg solve vol rest := by
  simp only [runMonths, runMonth_none cfg solve vol m h]

theorem runMonths_cons_some (vol : ℚ) (m : String × ℚ × ℚ) (rest : List (String × ℚ × ℚ))
    (x : ℚ × ℚ) (h : solve (mkNLP cfg m.2.1 m.2.2 vol) = some x) :
    runMonths cfg solve vol (m :: rest)
      = ((mkRow cfg m.1 m.2.1 m.2.2 vol x)
            :: (runMonths cfg solve (mkRow cfg m.1 m.2.1 m.2.2 vol x).volumeFinal rest).1,
         (runMonths cfg solve (mkRow cfg m.1 m.2.1 m.2.2 vol x).volumeFinal rest).2) := by
  simp only [runMonths, runMonth_some cfg solve vol m x h]

/-- Every recorded row comes from a successful solve of that month's NLP,
assembled at the volume the row itself records as its initial volume. -/
theorem runMonths_mem_shape :
    ∀ (ms : List (String × ℚ × ℚ)) (vol : ℚ) (r : MonthResult),
      r ∈ (runMonths cfg solve vol ms).1 →
      ∃ mes d a v x, solve (mkNLP cfg d a v) = some x ∧ r = mkRow cfg mes d a v x := by
  intro ms
  induction ms with
  | nil =>
      intro vol r h
      simp [runMonths] at h
  | cons m rest ih =>
      intro vol r h
      cases hs : solve (mkNLP cfg m.2.1 m.2.2 vol) with
      | none =>
          rw [runMonths_cons_none cfg solve vol m rest hs] at h
          exact ih vol r h
      | some x =>
          rw [runMonths_cons_some cfg solve vol m rest x hs] at h
          rcases List.mem_cons.mp h with hr | hr
          · exact ⟨m.1, m.2.1, m.2.2, vol, x, hs, hr⟩
          · exact ih _ r hr

/-- The first recorded row's initial volume is the volume the loop held
when it was recorded (failures do not move the volume). -/
theorem runMonths_head_vol :
    ∀ (ms : List (String × ℚ × ℚ)) (vol : ℚ) (r : MonthResult),
      (runMonths cfg solve vol ms).1.head? = some r → r.volumeInicial = vol := by
  intro ms
  induction ms with
  | nil =>
      intro vol r h
      simp [runMonths] at h
  | cons m rest ih =>
      intro vol r h
      cases hs : solve (mkNLP cfg m.2.1 m.2.2 vol) with
      | none =>
          rw [runMonths_cons_none cfg solve vol m rest hs] at h
          exact ih vol r h
      | some x =>
          rw [runMonths_cons_some cfg solve vol m rest x hs] at h
          simp only [List.head?_cons, Option.some.injEq] at h
          rw [← h, mkRow_volumeInicial]

/-- Consecutive recorded rows chain: each row's initial volume is the
previous recorded row's final volume. -/
theorem runMonths_chain :
    ∀ (ms : List (String × ℚ × ℚ)) (vol : ℚ),
      List.Chain' (fun a b => b.volumeInicial = a.volumeFinal)
        (runMonths cfg solve vol ms).1 := by
  intro ms
  induction ms with
  | nil =>
      intro vol
      simp [runMonths]
  | cons m rest ih =>
      intro vol
      cases hs : solve (mkNLP cfg m.2.1 m.2.2 vol) with
      | none =>
          rw [runMonths_cons_none cfg solve vol m rest hs]
          exact ih vol
      | some x =>
          rw [runMonths_cons_some cfg solve vol m rest x hs]
          refine List.chain'_cons'.mpr ⟨?_, ih _⟩
          intro b hb
          exact runMonths_head_vol cfg solve rest _ b hb

/-- The reservoir-bounds invariant: if the volume starts inside
`[volumeMinAbs, volumeMaxAbs]` then every recorded pre- and post-volume and
the final volume stay inside. -/
theorem runMonths_vol_bounds (hbnd : volumeMinAbs cfg ≤ volumeMaxAbs cfg) :
    ∀ (ms : List (String × ℚ × ℚ)) (vol : ℚ),
      volumeMinAbs cfg ≤ vol → vol ≤ volumeMaxAbs cfg →
      (∀ r ∈ (runMonths cfg solve vol ms).1,
        (volumeMinAbs cfg ≤ r.volumeInicial ∧ r.volumeInicial ≤ volumeMaxAbs cfg) ∧
        (volumeMinAbs cfg ≤ r.volumeFinal ∧ r.volumeFinal ≤ volumeMaxAbs cfg)) ∧
      volumeMinAbs cfg ≤ (runMonths cfg solve vol ms).2 ∧
      (runMonths cfg solve vol ms).2 ≤ volumeMaxAbs cfg := by
  intro ms
  induction ms with
  | nil =>
      intro vol h2 h3
      refine ⟨?_, h2, h3⟩
      intro r hr
      simp [runMonths] at hr
  | cons m rest ih =>
      intro vol h2 h3
      cases hs : solve (mkNLP cfg m.2.1 m.2.2 vol) with
      | none =>
          rw [runMonths_cons_none cfg solve vol m rest hs]
          exact ih vol h2 h3
      | some x =>
          rw [runMonths_cons_some cfg solve vol m rest x hs]
          have hlo : volumeMinAbs cfg ≤ (mkRow cfg m.1 m.2.1 m.2.2 vol x).volumeFinal := by
            rw [mkRow_volumeFinal]
            exact le_max_left _ _
          have hhi : (mkRow cfg m.1 m.2.1 m.2.2 vol x).volumeFinal ≤ volumeMaxAbs cfg := by
            rw [mkRow_volumeFinal]
            exact max_le hbnd (min_le_left _ _)
          rcases ih _ hlo hhi with ⟨hmem, hfin⟩
          refine ⟨?_, hfin⟩
          intro r hr
          rcases List.mem_cons.mp hr with hr | hr
          · subst hr
            exact ⟨⟨by rw [mkRow_volumeInicial]; exact h2,
                    by rw [mkRow_volumeInicial]; exact h3⟩, hlo, hhi⟩
          · exact hmem r hr

/-- `okOracle` only ever answers inside the box bounds it is given. -/
theorem okOracle_respects : RespectsBounds okOracle := by
  intro p x h
  simp only [okOracle] at h
  by_cases hc : p.lower.1 ≤ 50 ∧ 50 ≤ p.upper.1 ∧ p.lower.2 ≤ 500 ∧ 500 ≤ p.upper.2 ∧
      |p.bal (50, 500)| ≤ 1
  · rw [if_pos hc] at h
    cases h
    exact ⟨hc.1, hc.2.1, hc.2.2.1, hc.2.2.2.1⟩
  · rw [if_neg hc] at h
    cases h

/-- `okOracle` only ever answers points meeting the balance constraint
within `1`. -/
theorem okOracle_balance : MeetsBalance okOracle 1 := by
  intro p x h
  simp only [okOracle] at h
  by_cases hc : p.lower.1 ≤ 50 ∧ 50 ≤ p.upper.1 ∧ p.lower.2 ≤ 500 ∧ 500 ≤ p.upper.2 ∧
      |p.bal (50, 500)| ≤ 1
  · rw [if_pos hc] at h
    cases h
    exact hc.2.2.2.2
  · rw [if_neg hc] at h
    cases h

/-- On the source data `okOracle` succeeds on January at the initial
volume, answering `(50, 500)`. -/
theorem okOracle_janeiro : okOracle (mkNLP srcConfig 520 800 2500) = some (50, 500) := by
  norm_num [okOracle, mkNLP, srcConfig, pHidroMaxDisponivel, energiaDisponivel,
    volumeMaxAbs, restricao_balanco, abs]

/-- On the source data `okOracle` fails on February at volume 1000. -/
theorem okOracle_fevereiro : okOracle (mkNLP srcConfig 510 780 1000) = none := by
  norm_num [okOracle, mkNLP, srcConfig, pHidroMaxDisponivel, energiaDisponivel,
    volumeMaxAbs, restricao_balanco, abs]

/-- The full annual run of the source data under `okOracle`: January and
November succeed (both with demand 520), every other month fails and is
skipped; the November row's initial volume chains to the January row's
final volume across the nine skipped months. -/
theorem okOracle_run :
    (runMonths srcConfig okOracle 2500 meses).1 = [janRow, novRow] := by
  norm_num [meses, runMonths, runMonth, okOracle, mkNLP, srcConfig, pHidroMaxDisponivel,
    energiaDisponivel, volumeMaxAbs, volumeMinAbs, restricao_balanco, objetivo, abs,
    mkRow, janRow, novRow]

/-- The January row is recorded by the annual run under `okOracle`. -/
theorem janRow_mem : janRow ∈ (runMonths srcConfig okOracle 2500 meses).1 := by
  rw [okOracle_run]
  exact List.mem_cons_self _ _

end Lemmas

/-- C1: under the storage-ratio (shadow-price) policy, the Water-Value
Iterator derives the next water-value vector so that for every period `i`
except the last, `waterValue[i+1] = thermalUnitCost * (1 - storageRatio[i])`
with `storageRatio[i] = (storageAfter[i] - volumeMin) / (volumeMax -
volumeMin)` clamped to `[0,1]`; the flat update, assigning the constant
`thermalUnitCost * efficiencyFactor`, is available as the other
configuration option. -/
theorem waterValue_update_policies (c eff vmin vmax : ℚ) (old sa : List ℚ) (i : ℕ)
    (h : i + 1 < old.length) :
    (updateWaterValue .shadowPrice c eff vmin vmax old sa).getD (i + 1) 0
      = c * (1 - storageFrac vmin vmax (sa.getD i 0)) ∧
    (updateWaterValue .flat c eff vmin vmax old sa).getD i 0 = c * eff := by
  constructor
  · simp only [updateWaterValue]
    rw [List.getD_eq_getElem?_getD, List.getElem?_map, List.getElem?_range h]
    simp
  · simp only [updateWaterValue]
    rw [List.getD_eq_getElem?_getD, List.getElem?_map,
      List.getElem?_eq_getElem (Nat.lt_of_succ_lt h)]
    simp

/-- Witness for C1 at a concrete water-value vector and trajectory. -/
theorem waterValue_update_policies_witness :
    (updateWaterValue .shadowPrice 50 (1/2) 1000 4750 [10, 20, 30] [1000, 4750, 2000]).getD 2 0
      = 50 * (1 - storageFrac 1000 4750 ([(1000:ℚ), 4750, 2000].getD 1 0)) ∧
    (updateWaterValue .flat 50 (1/2) 1000 4750 [10, 20, 30] [1000, 4750, 2000]).getD 1 0
      = 50 * (1/2) :=
  waterValue_update_policies 50 (1/2) 1000 4750 [10, 20, 30] [1000, 4750, 2000] 1
    (by norm_num)

/-- C2: the objective handed to the per-period solve is
`cost(hydro, thermo) = c * thermo + w * hydro * periodHours` with the water
price `w = 0` (the source variant prices water at zero: its objective is
pure thermal cost), and every recorded row's cost equals that objective at
the returned dispatch. -/
theorem dispatch_objective_eq (cfg : Config) (solve : SolverOracle)
    (d a v vol : ℚ) (ms : List (String × ℚ × ℚ)) (x : ℚ × ℚ) (r : MonthResult)
    (hm : r ∈ (runMonths cfg solve vol ms).1) :
    (mkNLP cfg d a v).obj x = specDispatchCost cfg.custo_termo 0 cfg.horas_mes x ∧
    r.custo = specDispatchCost cfg.custo_termo 0 cfg.horas_mes (r.pHidro, r.pTermo) := by
  constructor
  · show objetivo cfg x = _
    simp only [objetivo, specDispatchCost]
    ring
  · rcases runMonths_mem_shape cfg solve ms vol r hm with ⟨mes, d', a', v', y, hy, hr⟩
    rw [hr, mkRow_custo, mkRow_pHidro, mkRow_pTermo]
    simp only [objetivo, specDispatchCost]
    ring

/-- Witness for C2 on the January solve and its recorded row. -/
theorem dispatch_objective_eq_witness :
    (mkNLP srcConfig 520 800 2500).obj (50, 500)
      = specDispatchCost srcConfig.custo_termo 0 srcConfig.horas_mes (50, 500) ∧
    janRow.custo
      = specDispatchCost srcConfig.custo_termo 0 srcConfig.horas_mes
          (janRow.pHidro, janRow.pTermo) :=
  dispatch_objective_eq srcConfig okOracle 520 800 2500 2500 meses (50, 500) janRow janRow_mem

/-- C3 counterexample: when the solver fails, the source does not return
the seed point and does not flag anything — the period is dropped.  With
an always-failing solver the annual run records no row at all (and the
reservoir volume is simply carried), refuting the claimed seed fallback
and `approximate` flag. -/
theorem failed_period_counterexample :
    runMonth srcConfig noOracle 2500 ("Janeiro", 520, 800) = (none, 2500) ∧
    (otimizacao_despacho_anual_com_afluencias srcConfig noOracle).1 = [] := by
  constructor
  · exact runMonth_none srcConfig noOracle 2500 ("Janeiro", 520, 800) rfl
  · simp [otimizacao_despacho_anual_com_afluencias, runMonths, runMonth, noOracle, meses]

/-- C3 (amended): for every period in which the solver does not converge,
the Annual Pass continues with the remaining periods, but the failed period
is dropped: no result row (seed or otherwise) is recorded, no approximate
flag exists, and the reservoir volume is left unchanged. -/
theorem failed_period_dropped (cfg : Config) (solve : SolverOracle) (vol : ℚ)
    (m : String × ℚ × ℚ) (rest : List (String × ℚ × ℚ))
    (h : solve (mkNLP cfg m.2.1 m.2.2 vol) = none) :
    runMonth cfg solve vol m = (none, vol) ∧
    runMonths cfg solve vol (m :: rest) = runMonths cfg solve vol rest :=
  ⟨runMonth_none cfg solve vol m h, runMonths_cons_none cfg solve vol m rest h⟩

/-- Witness for the amended C3 at a concrete failing month. -/
theorem failed_period_dropped_witness :
    runMonth srcConfig noOracle 2500 ("Janeiro", 520, 800) = (none, 2500) ∧
    runMonths srcConfig noOracle 2500 [("Janeiro", 520, 800)]
      = runMonths srcConfig noOracle 2500 [] :=
  failed_period_dropped srcConfig noOracle 2500 ("Janeiro", 520, 800) [] rfl

/-- C4: whenever the solver reports success, the accepted dispatch
satisfies power balance to solver tolerance, with the quadratic loss
computed on total dispatched power `hydro + thermo`. -/
theorem power_balance_on_success (cfg : Config) (solve : SolverOracle) (tol vol : ℚ)
    (ms : List (String × ℚ × ℚ)) (r : MonthResult)
    (hsolve : MeetsBalance solve tol)
    (hm : r ∈ (runMonths cfg solve vol ms).1) :
    |r.pHidro + r.pTermo - r.demanda - cfg.coef_perda * (r.pHidro + r.pTermo) ^ 2| ≤ tol := by
  rcases runMonths_mem_shape cfg solve ms vol r hm with ⟨mes, d, a, v, x, hx, hr⟩
  have hb := hsolve _ x hx
  rw [hr, mkRow_pHidro, mkRow_pTermo, mkRow_demanda]
  simpa [mkNLP, restricao_balanco] using hb

/-- Witness for C4 on the January row under `okOracle` with tolerance 1. -/
theorem power_balance_on_success_witness :
    |janRow.pHidro + janRow.pTermo - janRow.demanda
        - srcConfig.coef_perda * (janRow.pHidro + janRow.pTermo) ^ 2| ≤ 1 :=
  power_balance_on_success srcConfig okOracle 1 2500 meses janRow okOracle_balance janRow_mem

/-- C5: every recorded period satisfies `storageAfter = clamp(storageBefore
+ inflow - hydroPower * periodHours, volumeMin, volumeMax)`, and
consecutive recorded periods chain: the next row's initial storage equals
the previous row's final storage. -/
theorem reservoir_continuity (cfg : Config) (solve : SolverOracle) (vol : ℚ)
    (ms : List (String × ℚ × ℚ)) (r : MonthResult)
    (hm : r ∈ (runMonths cfg solve vol ms).1) :
    r.volumeFinal = max (volumeMinAbs cfg) (min (volumeMaxAbs cfg)
        (r.volumeInicial + r.afluencia - r.pHidro * cfg.horas_mes)) ∧
    List.Chain' (fun a b => b.volumeInicial = a.volumeFinal)
      (runMonths cfg solve vol ms).1 := by
  refine ⟨?_, runMonths_chain cfg solve ms vol⟩
  rcases runMonths_mem_shape cfg solve ms vol r hm with ⟨mes, d, a, v, x, hx, hr⟩
  rw [hr, mkRow_volumeFinal, mkRow_volumeInicial, mkRow_afluencia, mkRow_pHidro]

/-- Witness for C5 on the January row under `okOracle`. -/
theorem reservoir_continuity_witness :
    janRow.volumeFinal = max (volumeMinAbs srcConfig) (min (volumeMaxAbs srcConfig)
        (janRow.volumeInicial + janRow.afluencia - janRow.pHidro * srcConfig.horas_mes)) ∧
    List.Chain' (fun a b => b.volumeInicial = a.volumeFinal)
      (runMonths srcConfig okOracle 2500 meses).1 :=
  reservoir_continuity srcConfig okOracle 2500 meses janRow janRow_mem

/-- C6: if the pass is initialized inside `[volumeMin, volumeMax]` (as the
source's `volume_inicial` is), every recorded pre-period and post-period
volume and the final volume stay inside the operating bounds. -/
theorem volume_invariant (cfg : Config) (solve : SolverOracle) (vol : ℚ)
    (ms : List (String × ℚ × ℚ))
    (hbnd : volumeMinAbs cfg ≤ volumeMaxAbs cfg)
    (h0 : volumeMinAbs cfg ≤ vol) (h1 : vol ≤ volumeMaxAbs cfg) :
    (∀ r ∈ (runMonths cfg solve vol ms).1,
      (volumeMinAbs cfg ≤ r.volumeInicial ∧ r.volumeInicial ≤ volumeMaxAbs cfg) ∧
      (volumeMinAbs cfg ≤ r.volumeFinal ∧ r.volumeFinal ≤ volumeMaxAbs cfg)) ∧
    volumeMinAbs cfg ≤ (runMonths cfg solve vol ms).2 ∧
    (runMonths cfg solve vol ms).2 ≤ volumeMaxAbs cfg :=
  runMonths_vol_bounds cfg solve hbnd ms vol h0 h1

/-- Witness for C6: the source initialization (50% of 5000 = 2500) lies in
[1000, 4750] and the final volume of the `okOracle` run stays in bounds. -/
theorem volume_invariant_witness :
    volumeMinAbs srcConfig ≤ (runMonths srcConfig okOracle 2500 meses).2 ∧
    (runMonths srcConfig okOracle 2500 meses).2 ≤ volumeMaxAbs srcConfig :=
  (volume_invariant srcConfig okOracle 2500 meses
    (by norm_num [volumeMinAbs, volumeMaxAbs, srcConfig])
    (by norm_num [volumeMinAbs, srcConfig])
    (by norm_num [volumeMaxAbs, srcConfig])).2

/-- C7 counterexample: on January's inputs the hydro upper bound actually
passed to the solve is 50 (= hydroMin), not the claimed
`min(hydroMax, (inflow + storage clamped to volumeMax)/periodHours) = 55/12`. -/
theorem effective_ceiling_counterexample :
    (mkNLP srcConfig 520 800 2500).upper.1 = 50 ∧
    min srcConfig.p_hidro_max
        (min (800 + 2500) (volumeMaxAbs srcConfig) / srcConfig.horas_mes) = 55/12 ∧
    ¬ ((50:ℚ) = 55/12) := by
  refine ⟨?_, ?_, by norm_num⟩ <;>
    norm_num [mkNLP, srcConfig, pHidroMaxDisponivel, energiaDisponivel, volumeMaxAbs]

/-- C7 (amended): the computed effective hydro ceiling equals
`min(hydroMax, (inflow + storageBefore, clamped to volumeMax) /
periodHours)`, but the hydro upper bound actually passed to the dispatch
solve is `max(hydroMin, effectiveHydroMax)`. -/
theorem effective_ceiling_formula (cfg : Config) (d a v : ℚ) :
    pHidroMaxDisponivel cfg a v
      = min cfg.p_hidro_max (min (a + v) (volumeMaxAbs cfg) / cfg.horas_mes) ∧
    (mkNLP cfg d a v).upper.1 = max cfg.p_hidro_min (pHidroMaxDisponivel cfg a v) :=
  ⟨rfl, rfl⟩

/-- C8 counterexample: a bound-respecting solver yields an accepted January
row whose hydro output (50) exceeds the effective hydro ceiling (55/12),
because the bound actually enforced is `max(hydroMin, effectiveHydroMax)`. -/
theorem box_bounds_counterexample :
    RespectsBounds okOracle ∧
    janRow ∈ (runMonths srcConfig okOracle 2500 meses).1 ∧
    ¬ janRow.pHidro ≤ pHidroMaxDisponivel srcConfig janRow.afluencia janRow.volumeInicial := by
  refine ⟨okOracle_respects, janRow_mem, ?_⟩
  norm_num [janRow, pHidroMaxDisponivel, energiaDisponivel, volumeMaxAbs, srcConfig]

/-- C8 (amended): every recorded dispatch of a bound-respecting solver
satisfies the box bounds actually enforced, `hydroMin ≤ hydro ≤
max(hydroMin, effectiveHydroMax)` and `thermoMin ≤ thermo ≤ thermoMax`;
on solver failure no dispatch is recorded at all, so no fallback row can
violate them. -/
theorem box_bounds_hold (cfg : Config) (solve : SolverOracle) (vol : ℚ)
    (ms : List (String × ℚ × ℚ)) (r : MonthResult)
    (hb : RespectsBounds solve)
    (hm : r ∈ (runMonths cfg solve vol ms).1) :
    cfg.p_hidro_min ≤ r.pHidro ∧
    r.pHidro ≤ max cfg.p_hidro_min (pHidroMaxDisponivel cfg r.afluencia r.volumeInicial) ∧
    cfg.p_termo_min ≤ r.pTermo ∧ r.pTermo ≤ cfg.p_termo_max := by
  rcases runMonths_mem_shape cfg solve ms vol r hm with ⟨mes, d, a, v, x, hx, hr⟩
  have h := hb _ x hx
  rw [hr, mkRow_pHidro, mkRow_pTermo, mkRow_afluencia, mkRow_volumeInicial]
  exact h

/-- Witness for the amended C8 on the January row under `okOracle`. -/
theorem box_bounds_hold_witness :
    srcConfig.p_hidro_min ≤ janRow.pHidro ∧
    janRow.pHidro
      ≤ max srcConfig.p_hidro_min
          (pHidroMaxDisponivel srcConfig janRow.afluencia janRow.volumeInicial) ∧
    srcConfig.p_termo_min ≤ janRow.pTermo ∧ janRow.pTermo ≤ srcConfig.p_termo_max :=
  box_bounds_hold srcConfig okOracle 2500 meses janRow okOracle_respects janRow_mem

/-- C9: when the effective hydro ceiling collapses to (or below) hydroMin,
any successful bound-respecting solve is forced to `hydro = hydroMin` by
the box alone — hence independently of any water value — and the hydro box
passed to the solver stays consistent (`lower ≤ upper`), so this tight
bound alone cannot make the bound set empty. -/
theorem degenerate_ceiling_forces_hydro_min (cfg : Config) (solve : SolverOracle)
    (d a v : ℚ) (x : ℚ × ℚ)
    (hb : RespectsBounds solve)
    (hc : pHidroMaxDisponivel cfg a v ≤ cfg.p_hidro_min)
    (hs : solve (mkNLP cfg d a v) = some x) :
    x.1 = cfg.p_hidro_min ∧
    (mkNLP cfg d a v).lower.1 ≤ (mkNLP cfg d a v).upper.1 := by
  have h := hb _ x hs
  have hup : (mkNLP cfg d a v).upper.1 = cfg.p_hidro_min := by
    show max cfg.p_hidro_min (pHidroMaxDisponivel cfg a v) = cfg.p_hidro_min
    exact max_eq_left hc
  refine ⟨le_antisymm (hup ▸ h.2.1) h.1, ?_⟩
  show cfg.p_hidro_min ≤ max cfg.p_hidro_min (pHidroMaxDisponivel cfg a v)
  exact le_max_left _ _

/-- Witness for C9: on January's inputs the ceiling 55/12 collapses below
hydroMin = 50 and the accepted dispatch has hydro = 50. -/
theorem degenerate_ceiling_forces_hydro_min_witness :
    ((50:ℚ), (500:ℚ)).1 = srcConfig.p_hidro_min ∧
    (mkNLP srcConfig 520 800 2500).lower.1 ≤ (mkNLP srcConfig 520 800 2500).upper.1 :=
  degenerate_ceiling_forces_hydro_min srcConfig okOracle 520 800 2500 (50, 500)
    okOracle_respects
    (by norm_num [pHidroMaxDisponivel, energiaDisponivel, volumeMaxAbs, srcConfig])
    okOracle_janeiro

/-- C10: a month whose solve fails leaves the reservoir volume exactly
unchanged and appends no result row (its inflow is never added to
storage); recorded rows chain, so the next successfully solved month's
recorded initial volume equals the last successful month's recorded final
volume. -/
theorem failed_month_volume_unchanged (cfg : Config) (solve : SolverOracle)
    (vol vol0 : ℚ) (m : String × ℚ × ℚ) (ms : List (String × ℚ × ℚ))
    (h : solve (mkNLP cfg m.2.1 m.2.2 vol) = none) :
    runMonth cfg solve vol m = (none, vol) ∧
    List.Chain' (fun a b => b.volumeInicial = a.volumeFinal)
      (runMonths cfg solve vol0 ms).1 :=
  ⟨runMonth_none cfg solve vol m h, runMonths_chain cfg solve ms vol0⟩

/-- Witness for C10: February fails under `okOracle` at volume 1000 and
is skipped with the volume intact; on the full run the recorded rows
(January, November) chain across the skipped months. -/
theorem failed_month_volume_unchanged_witness :
    runMonth srcConfig okOracle 1000 ("Fevereiro", 510, 780) = (none, 1000) ∧
    List.Chain' (fun a b => b.volumeInicial = a.volumeFinal)
      (runMonths srcConfig okOracle 2500 meses).1 :=
  failed_month_volume_unchanged srcConfig okOracle 1000 2500 ("Fevereiro", 510, 780) meses
    okOracle_fevereiro
